import Mathlib

/-!
Verification of the process-lifecycle supervisor and readiness-polling
protocol of `arti_rpc_tests/context.py`.

The embedded operations are:

* `TestContext._wait_for_rpc` — a bounded retry loop around the
  attempt-connection collaborator `open_rpc_connection`;
* `ArtiProcess.is_running` and `TestContext.arti_process_is_running` —
  non-blocking liveness checks;
* `ArtiProcess.close` — two-phase shutdown (interrupt, grace period,
  escalate to terminate, final bounded wait, clear handle).

Times are modelled as rationals.  The connection attempts and the
operating-system process are external collaborators; their behaviour is
supplied as parameters (`atts : Nat → AttemptResult` gives the outcome of
the i-th connection attempt; a `Proc` records whether the process has
already exited and whether it exits within the 10-unit waits that follow
a SIGINT or a SIGTERM).
-/

namespace ArtiRpcTests

/-- Outcome of one call to `open_rpc_connection` (the attempt-connection
collaborator).  The call either returns a connection object, raises the
library's typed failure `arti_rpc.ArtiRpcError`, or raises an exception of
some other type. -/
inductive AttemptResult
  | success
  | rpcError
  | otherError
deriving DecidableEq

/-- How a run of `TestContext._wait_for_rpc` ends: a normal return, a
`FatalException` carrying a message (the loop budget was exhausted), or an
exception from attempt number `attemptIndex + 1` propagating uncaught
(only `arti_rpc.ArtiRpcError` is caught by the `except` clause). -/
inductive WaitOutcome
  | ok
  | fatalTimeout (msg : String)
  | propagated (attemptIndex : Nat)
deriving DecidableEq

/-- Observable result of a `_wait_for_rpc` run: how it ended, how many
calls to `open_rpc_connection` were made, and the final value of the
`waited` accumulator (total time slept). -/
structure WaitResult where
  outcome : WaitOutcome
  attemptsMade : Nat
  waited : ℚ
deriving DecidableEq

/-- The message of the `FatalException` raised when the attempt budget is
exhausted.  The source line is
`raise FatalException("Arti not reachable after \x7btimeout\x7d seconds.")`:
the string literal has no `f` prefix, so the braces are literal text and
the `timeout` value is not interpolated — the message is a constant,
independent of `timeout`. -/
def timeoutMessage (timeout : ℚ) : String :=
  "Arti not reachable after \x7btimeout\x7d seconds."

/-- The `for _ in range(...)` loop body of `TestContext._wait_for_rpc`.
`k` is the number of loop iterations remaining, `i` the number of
attempts already made, `w` the current value of `waited`.  Each iteration
calls `open_rpc_connection` (outcome `atts i`): on success it returns; on
`arti_rpc.ArtiRpcError` it sleeps `interval` and retries; any other
exception type is not matched by the `except` clause and propagates.
When the loop ends without success, `FatalException` is raised. -/
def waitLoop (atts : Nat → AttemptResult) (interval timeout : ℚ) :
    Nat → Nat → ℚ → WaitResult
  | 0, i, w => ⟨.fatalTimeout (timeoutMessage timeout), i, w⟩
  | k + 1, i, w =>
    match atts i with
    | .success => ⟨.ok, i + 1, w⟩
    | .rpcError => waitLoop atts interval timeout k (i + 1) (w + interval)
    | .otherError => ⟨.propagated i, i + 1, w⟩

/-- `TestContext._wait_for_rpc`, generalized over the poll interval in the
way §4.2 of the design parameterizes `wait_until_ready`; the source fixes
`interval = 0.1` (see `wait_for_rpc`).  The attempt budget is
`math.ceil(timeout / interval)` (an empty `range` when the ceiling is not
positive, hence `Int.toNat`); `waited` starts at `0.0`. -/
def waitForRpcGen (timeout interval : ℚ) (atts : Nat → AttemptResult) :
    WaitResult :=
  waitLoop atts interval timeout (⌈timeout / interval⌉.toNat) 0 0

/-- `TestContext._wait_for_rpc(timeout)` as written: `interval = 0.1`. -/
def wait_for_rpc (timeout : ℚ) (atts : Nat → AttemptResult) : WaitResult :=
  waitForRpcGen timeout (1 / 10) atts

/-- Behaviour of the operating-system process wrapped by `ArtiProcess`,
as far as `close` and `is_running` can observe it: whether it has already
exited, and whether it exits within the 10-unit `wait(10)` that follows a
SIGINT (resp. a `terminate()`). -/
structure Proc where
  exited : Bool
  exitsOnInt : Bool
  exitsOnTerm : Bool
deriving DecidableEq

/-- Signals `ArtiProcess.close` can deliver to the child. -/
inductive Sig
  | sigint
  | sigterm
deriving DecidableEq

/-- How a `close` call ends: normal return, or `subprocess.TimeoutExpired`
propagating from the final uncaught `self.process.wait(10)`. -/
inductive CloseResult
  | ok
  | timeoutExpired
deriving DecidableEq

/-- Observable effect of one `ArtiProcess.close` call: the value of
`self.process` afterwards, the signals delivered to the child in order,
and whether the call returned or raised. -/
structure CloseOutput where
  state : Option Proc
  signals : List Sig
  result : CloseResult
deriving DecidableEq

/-- `ArtiProcess.close(gently)`.  `isWin32` is `sys.platform == "win32"`;
`s` is `self.process`.  If the handle is `None` the body is skipped.
Otherwise: when `gently and sys.platform != "win32"`, send SIGINT
(`Popen.send_signal` does nothing if the process already completed), wait
up to 10 units; on `TimeoutExpired`, `terminate()`.  When not gentle (or
on win32), `terminate()` directly.  In all paths the final
`self.process.wait(10)` then runs uncaught: if the process has not exited
within it, `TimeoutExpired` propagates and `self.process = None` is never
reached; otherwise the handle is cleared. -/
def close (isWin32 gently : Bool) (s : Option Proc) : CloseOutput :=
  match s with
  | none => ⟨none, [], .ok⟩
  | some p =>
    if gently && !isWin32 then
      let sigs := if p.exited then [] else [Sig.sigint]
      if p.exited || p.exitsOnInt then
        ⟨none, sigs, .ok⟩
      else
        let sigs := sigs ++ [Sig.sigterm]
        if p.exitsOnTerm then ⟨none, sigs, .ok⟩
        else ⟨some p, sigs, .timeoutExpired⟩
    else
      let sigs := if p.exited then [] else [Sig.sigterm]
      if p.exited || p.exitsOnTerm then ⟨none, sigs, .ok⟩
      else ⟨some p, sigs, .timeoutExpired⟩

/-- `ArtiProcess.is_running`:
`self.process is not None and self.process.poll() is None`.
`Popen.poll` is the non-blocking exit-status check; it returns `None`
exactly when the process has not yet exited. -/
def is_running (s : Option Proc) : Bool :=
  match s with
  | none => false
  | some p => !p.exited

/-- The fields `TestContext.__init__` stores on `self`.  Paths are
modelled as strings; `arti_process` is `Optional[ArtiProcess]` and an
`ArtiProcess` in turn holds an `Optional[Popen]`, hence the nested
`Option`. -/
structure TestContextState where
  arti_binary : String
  conf_file : String
  socket_path : String
  unix_connpt_path : Option String
  tcp_connpt_path : String
  cookie_path : String
  rpc_port : Nat
  arti_process : Option (Option Proc)
deriving DecidableEq

/-- `TestContext.arti_process_is_running`: `False` when `arti_process` is
`None`, else delegate to `ArtiProcess.is_running`. -/
def arti_process_is_running (ctx : TestContextState) : Bool :=
  match ctx.arti_process with
  | none => false
  | some s => is_running s

/-- `TestContext._wait_for_rpc` together with its effect on `self`.  The
body reads `self` only to call `open_rpc_connection` — whose outcomes are
the externally supplied `atts` — and assigns no attribute; in particular
it never reads `self.arti_process`.  On success the connection object is
bound to `_` and discarded, so the caller receives `None` and the context
is returned unchanged. -/
def wait_for_rpc_ctx (timeout : ℚ) (ctx : TestContextState)
    (atts : Nat → AttemptResult) : TestContextState × WaitResult :=
  (ctx, wait_for_rpc timeout atts)

/-- The attempt budget `math.ceil(timeout / interval)` at the default
`timeout = 3.0`, `interval = 0.1` is 30 iterations. -/
theorem budget_three : (⌈(3 : ℚ) / (1 / 10)⌉).toNat = 30 := by
  rw [show ⌈(3 : ℚ) / (1 / 10)⌉ = 30 from by norm_num]
  rfl

/-- The attempt budget at `timeout = 1.0`, `interval = 0.1` is 10. -/
theorem budget_one : (⌈(1 : ℚ) / (1 / 10)⌉).toNat = 10 := by
  rw [show ⌈(1 : ℚ) / (1 / 10)⌉ = 10 from by norm_num]
  rfl

/-- The loop makes at most `i + k` attempts when `i` were already made
and `k` iterations remain. -/
theorem waitLoop_attempts_le (atts : Nat → AttemptResult) (v t : ℚ) :
    ∀ k i w, (waitLoop atts v t k i w).attemptsMade ≤ i + k := by
  intro k
  induction k with
  | zero =>
    intro i w
    simp [waitLoop]
  | succ k ih =>
    intro i w
    cases h : atts i with
    | success => simp [waitLoop, h]
    | rpcError =>
      simp only [waitLoop, h]
      have := ih (i + 1) (w + v)
      omega
    | otherError => simp [waitLoop, h]

/-- Each remaining iteration can add at most one sleep of `v`, so the
final `waited` value is at most `w + k * v`. -/
theorem waitLoop_waited_le (atts : Nat → AttemptResult) (v t : ℚ)
    (hv : 0 ≤ v) :
    ∀ k i w, (waitLoop atts v t k i w).waited ≤ w + (k : ℚ) * v := by
  intro k
  induction k with
  | zero =>
    intro i w
    simp [waitLoop]
  | succ k ih =>
    intro i w
    have hkv : 0 ≤ (k : ℚ) * v := mul_nonneg (Nat.cast_nonneg k) hv
    cases h : atts i with
    | success =>
      simp only [waitLoop, h]
      push_cast
      linarith
    | rpcError =>
      simp only [waitLoop, h]
      have := ih (i + 1) (w + v)
      push_cast
      push_cast at this
      linarith
    | otherError =>
      simp only [waitLoop, h]
      push_cast
      linarith

/-- Unrolling lemma: a prefix of `d` attempts that all raise
`ArtiRpcError` is absorbed by the loop, consuming `d` units of fuel,
advancing the attempt counter by `d` and sleeping `d * v`. -/
theorem waitLoop_skip (atts : Nat → AttemptResult) (v t : ℚ) :
    ∀ d k i w, d ≤ k → (∀ j, j < d → atts (i + j) = .rpcError) →
      waitLoop atts v t k i w
        = waitLoop atts v t (k - d) (i + d) (w + (d : ℚ) * v) := by
  intro d
  induction d with
  | zero =>
    intro k i w _ _
    simp
  | succ d ih =>
    intro k i w hdk hall
    obtain ⟨k', rfl⟩ : ∃ k', k = k' + 1 := ⟨k - 1, by omega⟩
    have h0 : atts i = .rpcError := by simpa using hall 0 (Nat.succ_pos d)
    have hall' : ∀ j, j < d → atts (i + 1 + j) = .rpcError := by
      intro j hj
      have := hall (j + 1) (by omega)
      rw [show i + 1 + j = i + (j + 1) from by omega]
      exact this
    simp only [waitLoop, h0]
    rw [ih k' (i + 1) (w + v) (by omega) hall']
    have e1 : k' + 1 - (d + 1) = k' - d := by omega
    have e2 : i + (d + 1) = i + 1 + d := by omega
    rw [e1, e2]
    congr 1
    push_cast
    ring

/-- When every attempt within the budget raises `ArtiRpcError`, the run
exhausts the budget, raises `FatalException`, and has slept once per
attempt. -/
theorem waitForRpcGen_all_rpc (t v : ℚ) (atts : Nat → AttemptResult)
    (h : ∀ j, j < (⌈t / v⌉).toNat → atts j = .rpcError) :
    waitForRpcGen t v atts
      = ⟨.fatalTimeout (timeoutMessage t), (⌈t / v⌉).toNat,
         ((⌈t / v⌉).toNat : ℚ) * v⟩ := by
  rw [waitForRpcGen,
    waitLoop_skip atts v t ((⌈t / v⌉).toNat) ((⌈t / v⌉).toNat) 0 0 le_rfl
      (by simpa using h)]
  simp [waitLoop]

/-- When the first `d` attempts raise `ArtiRpcError` and attempt `d`
(0-indexed) succeeds within the budget, the run returns normally after
exactly `d + 1` attempts and `d` sleeps. -/
theorem waitForRpcGen_first_success (t v : ℚ) (atts : Nat → AttemptResult)
    (d : Nat) (hd : d < (⌈t / v⌉).toNat)
    (hfail : ∀ j, j < d → atts j = .rpcError)
    (hsucc : atts d = .success) :
    waitForRpcGen t v atts = ⟨.ok, d + 1, (d : ℚ) * v⟩ := by
  rw [waitForRpcGen,
    waitLoop_skip atts v t d ((⌈t / v⌉).toNat) 0 0 hd.le (by simpa using hfail)]
  obtain ⟨m, hm⟩ : ∃ m, (⌈t / v⌉).toNat - d = m + 1 :=
    ⟨(⌈t / v⌉).toNat - d - 1, by omega⟩
  rw [hm]
  simp [waitLoop, hsucc]

/-- When the first `d` attempts raise `ArtiRpcError` and attempt `d`
(0-indexed) raises an exception that is not an `ArtiRpcError`, that
exception propagates: the run ends at attempt `d + 1` with the
`propagated` outcome. -/
theorem waitForRpcGen_propagates (t v : ℚ) (atts : Nat → AttemptResult)
    (d : Nat) (hd : d < (⌈t / v⌉).toNat)
    (hfail : ∀ j, j < d → atts j = .rpcError)
    (hoth : atts d = .otherError) :
    waitForRpcGen t v atts = ⟨.propagated d, d + 1, (d : ℚ) * v⟩ := by
  rw [waitForRpcGen,
    waitLoop_skip atts v t d ((⌈t / v⌉).toNat) 0 0 hd.le (by simpa using hfail)]
  obtain ⟨m, hm⟩ : ∃ m, (⌈t / v⌉).toNat - d = m + 1 :=
    ⟨(⌈t / v⌉).toNat - d - 1, by omega⟩
  rw [hm]
  simp [waitLoop, hoth]

/-- A `close` call that returns normally always clears `self.process`. -/
theorem close_ok_clears (w32 g : Bool) (s : Option Proc)
    (h : (close w32 g s).result = .ok) : (close w32 g s).state = none := by
  rcases s with _ | p
  · rfl
  · cases hw : w32 <;> cases hg : g <;>
      cases he : p.exited <;> cases hi : p.exitsOnInt <;>
      cases ht : p.exitsOnTerm <;>
      simp_all [close]

/-- A `TestContextState` whose supervised process is still running. -/
def ctxRunning : TestContextState :=
  ⟨"arti", "arti.toml", "arti_rpc.socket", some "arti_unix_connpt.toml",
   "arti_tcp_connpt.toml", "rpc_cookie.secret", 18929,
   some (some ⟨false, true, true⟩)⟩

/-- The same `TestContextState`, except that the supervised process has
already exited. -/
def ctxDead : TestContextState :=
  { ctxRunning with arti_process := some (some ⟨true, true, true⟩) }

/-- C1: when the attempt budget is exhausted, `_wait_for_rpc` raises a
`FatalException` whose message is the constant text
`Arti not reachable after \x7btimeout\x7d seconds.` — the source string
lacks the `f` prefix, so the message does not report the configured
timeout value: runs with `timeout = 3` and `timeout = 5` fail with
byte-for-byte identical messages. -/
theorem c1_timeout_message_not_interpolated :
    (wait_for_rpc 3 (fun _ => .rpcError)).outcome
        = .fatalTimeout "Arti not reachable after \x7btimeout\x7d seconds." ∧
    (wait_for_rpc 3 (fun _ => .rpcError)).outcome
        = (wait_for_rpc 5 (fun _ => .rpcError)).outcome := by
  rw [wait_for_rpc, wait_for_rpc,
    waitForRpcGen_all_rpc 3 (1 / 10) (fun _ => .rpcError) (fun _ _ => rfl),
    waitForRpcGen_all_rpc 5 (1 / 10) (fun _ => .rpcError) (fun _ _ => rfl)]
  exact ⟨rfl, rfl⟩

/-- C2 counterexample: a first attempt that raises an exception other
than `arti_rpc.ArtiRpcError` is not absorbed: with the default
`timeout = 3` the run ends at once with the exception propagating, after
1 attempt and no sleep, although the attempt budget is 30. -/
theorem c2_counterexample :
    wait_for_rpc 3 (fun _ => .otherError) = ⟨.propagated 0, 1, 0⟩ ∧
    1 < (⌈(3 : ℚ) / (1 / 10)⌉).toNat := by
  constructor
  · have h := waitForRpcGen_propagates 3 (1 / 10) (fun _ => .otherError) 0
      (by rw [budget_three]; decide) (fun j hj => absurd hj (Nat.not_lt_zero j))
      rfl
    rw [wait_for_rpc, h]
    norm_num
  · rw [budget_three]
    decide

/-- C2 (amended): only failures of the recognized type
`arti_rpc.ArtiRpcError` are treated as retryable — such a failure is
absorbed, one poll interval is slept, and the loop retries; a failure of
any other type propagates to the caller at once, before the attempt
budget is exhausted. -/
theorem c2_only_rpc_errors_retried (t v : ℚ) (atts : Nat → AttemptResult)
    (d : Nat) (hd : d < (⌈t / v⌉).toNat)
    (hfail : ∀ j, j < d → atts j = .rpcError) :
    (atts d = .rpcError →
      waitForRpcGen t v atts
        = waitLoop atts v t ((⌈t / v⌉).toNat - (d + 1)) (d + 1)
            (((d : ℚ) + 1) * v)) ∧
    (atts d = .otherError →
      waitForRpcGen t v atts = ⟨.propagated d, d + 1, (d : ℚ) * v⟩) := by
  constructor
  · intro hstep
    have hall : ∀ j, j < d + 1 → atts (0 + j) = .rpcError := by
      intro j hj
      rcases Nat.lt_succ_iff_lt_or_eq.mp hj with hlt | rfl
      · simpa using hfail j hlt
      · simpa using hstep
    rw [waitForRpcGen,
      waitLoop_skip atts v t (d + 1) ((⌈t / v⌉).toNat) 0 0 (by omega) hall]
    congr 1
    · omega
    · push_cast
      ring
  · intro hoth
    exact waitForRpcGen_propagates t v atts d hd hfail hoth

/-- C2 witness: with `timeout = 3`, `interval = 1/10`, one absorbed
`ArtiRpcError` and then an `otherError`, the theorem applies at `d = 1`. -/
theorem c2_witness :
    (1 < (⌈(3 : ℚ) / (1 / 10)⌉).toNat ∧
      (∀ j, j < 1 →
        (fun j => if j < 1 then AttemptResult.rpcError else .otherError) j
          = .rpcError)) ∧
    (((fun j => if j < 1 then AttemptResult.rpcError else .otherError) 1
        = .rpcError →
      waitForRpcGen 3 (1 / 10)
          (fun j => if j < 1 then AttemptResult.rpcError else .otherError)
        = waitLoop (fun j => if j < 1 then AttemptResult.rpcError
            else .otherError) (1 / 10) 3 ((⌈(3 : ℚ) / (1 / 10)⌉).toNat - (1 + 1))
            (1 + 1) (((1 : ℚ) + 1) * (1 / 10))) ∧
    ((fun j => if j < 1 then AttemptResult.rpcError else .otherError) 1
        = .otherError →
      waitForRpcGen 3 (1 / 10)
          (fun j => if j < 1 then AttemptResult.rpcError else .otherError)
        = ⟨.propagated 1, 1 + 1, (1 : ℚ) * (1 / 10)⟩)) :=
  ⟨⟨by rw [budget_three]; decide, by decide⟩,
   c2_only_rpc_errors_retried 3 (1 / 10)
     (fun j => if j < 1 then AttemptResult.rpcError else .otherError) 1
     (by rw [budget_three]; decide) (by decide)⟩

/-- C3 counterexample: two contexts that differ exactly in whether the
supervised process is still alive — `arti_process_is_running` answers
`true` for one and `false` for the other — produce identical
`_wait_for_rpc` results on the same attempt outcomes: the poller's
outcome does not depend on process liveness. -/
theorem c3_counterexample :
    arti_process_is_running ctxRunning = true ∧
    arti_process_is_running ctxDead = false ∧
    (wait_for_rpc_ctx 3 ctxRunning (fun _ => .rpcError)).2
      = (wait_for_rpc_ctx 3 ctxDead (fun _ => .rpcError)).2 :=
  ⟨rfl, rfl, rfl⟩

/-- C3 (amended): `_wait_for_rpc` never consults the supervised process:
its body contains no call to `arti_process_is_running` or any read of
`self.arti_process`, so with the attempt-connection results held fixed,
its result is the same for every context — in particular for contexts
whose processes differ in liveness.  No execution's outcome depends on
whether the process died while waiting. -/
theorem c3_outcome_independent_of_liveness (t : ℚ)
    (ctx ctx' : TestContextState) (atts : Nat → AttemptResult) :
    (wait_for_rpc_ctx t ctx atts).2 = (wait_for_rpc_ctx t ctx' atts).2 :=
  rfl

/-- C4: for positive `timeout` and `poll_interval`, the loop makes at
most `ceil(timeout / poll_interval)` attempts, its accumulated sleep time
never exceeds `timeout + poll_interval`, and when every attempt within
the budget fails (with the caught failure type) it raises the
readiness-timeout `FatalException`. -/
theorem c4_attempt_budget_and_timeout (t v : ℚ) (atts : Nat → AttemptResult)
    (ht : 0 < t) (hv : 0 < v) :
    (waitForRpcGen t v atts).attemptsMade ≤ (⌈t / v⌉).toNat ∧
    (waitForRpcGen t v atts).waited ≤ t + v ∧
    ((∀ j, j < (⌈t / v⌉).toNat → atts j = .rpcError) →
      (waitForRpcGen t v atts).outcome = .fatalTimeout (timeoutMessage t)) := by
  have hceil : (0 : ℤ) < ⌈t / v⌉ := Int.ceil_pos.mpr (div_pos ht hv)
  have hn : (((⌈t / v⌉).toNat : ℕ) : ℚ) < t / v + 1 := by
    calc (((⌈t / v⌉).toNat : ℕ) : ℚ) = ((⌈t / v⌉ : ℤ) : ℚ) := by
          exact_mod_cast congrArg (fun z : ℤ => (z : ℚ))
            (Int.toNat_of_nonneg hceil.le)
      _ < t / v + 1 := Int.ceil_lt_add_one (t / v)
  have hnv : (((⌈t / v⌉).toNat : ℕ) : ℚ) * v ≤ t + v := by
    have hmul := mul_le_mul_of_nonneg_right hn.le hv.le
    rw [add_mul, one_mul, div_mul_cancel₀ t hv.ne'] at hmul
    exact hmul
  refine ⟨?_, ?_, ?_⟩
  · simpa using waitLoop_attempts_le atts v t ((⌈t / v⌉).toNat) 0 0
  · have hw := waitLoop_waited_le atts v t hv.le ((⌈t / v⌉).toNat) 0 0
    rw [waitForRpcGen]
    calc (waitLoop atts v t ((⌈t / v⌉).toNat) 0 0).waited
        ≤ 0 + (((⌈t / v⌉).toNat : ℕ) : ℚ) * v := hw
      _ ≤ t + v := by rw [zero_add]; exact hnv
  · intro h
    rw [waitForRpcGen_all_rpc t v atts h]

/-- C4 witness: `timeout = 1`, `poll_interval = 1/10`, every attempt
failing with `ArtiRpcError`. -/
theorem c4_witness :
    ((0 : ℚ) < 1 ∧ (0 : ℚ) < 1 / 10) ∧
    ((waitForRpcGen 1 (1 / 10) (fun _ => .rpcError)).attemptsMade
        ≤ (⌈(1 : ℚ) / (1 / 10)⌉).toNat ∧
      (waitForRpcGen 1 (1 / 10) (fun _ => .rpcError)).waited ≤ 1 + 1 / 10 ∧
      ((∀ j, j < (⌈(1 : ℚ) / (1 / 10)⌉).toNat →
          (fun _ => AttemptResult.rpcError) j = .rpcError) →
        (waitForRpcGen 1 (1 / 10) (fun _ => .rpcError)).outcome
          = .fatalTimeout (timeoutMessage 1))) :=
  ⟨⟨by norm_num, by norm_num⟩,
   c4_attempt_budget_and_timeout 1 (1 / 10) (fun _ => .rpcError)
     (by norm_num) (by norm_num)⟩

/-- C5: when the `k`-th attempt (1-indexed) is the first to succeed and
`k` is within the attempt budget, `_wait_for_rpc` returns normally after
exactly `k` attempts, having slept only through the `k - 1` failed
attempts — the remaining budget and wait time are skipped. -/
theorem c5_success_short_circuits (t v : ℚ) (atts : Nat → AttemptResult)
    (k : Nat) (hk1 : 1 ≤ k) (hk : k ≤ (⌈t / v⌉).toNat)
    (hfail : ∀ j, j < k - 1 → atts j = .rpcError)
    (hsucc : atts (k - 1) = .success) :
    waitForRpcGen t v atts = ⟨.ok, k, ((k : ℚ) - 1) * v⟩ := by
  have h := waitForRpcGen_first_success t v atts (k - 1) (by omega) hfail hsucc
  have hc : ((k - 1 : ℕ) : ℚ) = (k : ℚ) - 1 := by
    push_cast [Nat.cast_sub hk1]
    ring
  have h2 : k - 1 + 1 = k := by omega
  rw [h, hc, h2]

/-- C5 witness: `timeout = 3`, `poll_interval = 1/10`, the first two
attempts fail with `ArtiRpcError` and the third succeeds: exactly 3
attempts, not 30. -/
theorem c5_witness :
    (1 ≤ 3 ∧ 3 ≤ (⌈(3 : ℚ) / (1 / 10)⌉).toNat ∧
      (∀ j, j < 3 - 1 →
        (fun j => if j < 2 then AttemptResult.rpcError else .success) j
          = .rpcError) ∧
      (fun j => if j < 2 then AttemptResult.rpcError else .success) (3 - 1)
        = .success) ∧
    waitForRpcGen 3 (1 / 10)
        (fun j => if j < 2 then AttemptResult.rpcError else .success)
      = ⟨.ok, 3, ((3 : ℚ) - 1) * (1 / 10)⟩ :=
  ⟨⟨by decide, by rw [budget_three]; decide, by decide, by decide⟩,
   c5_success_short_circuits 3 (1 / 10)
     (fun j => if j < 2 then AttemptResult.rpcError else .success) 3
     (by decide) (by rw [budget_three]; decide) (by decide) (by decide)⟩

/-- C6: on a non-win32 platform, `close(gently=True)` on a running
process: if the process exits within the 10-unit grace period after
SIGINT, SIGTERM is never delivered and the call returns normally; if it
ignores SIGINT through the grace period, SIGTERM is delivered and the
call returns normally exactly when the process then exits (it returns
only after the process has exited). -/
theorem c6_gentle_close (p : Proc) (hrun : p.exited = false) :
    (p.exitsOnInt = true →
      Sig.sigterm ∉ (close false true (some p)).signals ∧
      (close false true (some p)).result = .ok) ∧
    (p.exitsOnInt = false →
      Sig.sigterm ∈ (close false true (some p)).signals ∧
      ((close false true (some p)).result = .ok ↔ p.exitsOnTerm = true)) := by
  constructor
  · intro hint
    constructor
    · simp [close, hrun, hint]
    · simp [close, hrun, hint]
  · intro hint
    constructor
    · cases hpt : p.exitsOnTerm <;> simp [close, hrun, hint, hpt]
    · cases hpt : p.exitsOnTerm <;> simp [close, hrun, hint, hpt]

/-- C6 witness: a running process that exits on SIGINT but would ignore
SIGTERM. -/
theorem c6_witness :
    (Proc.mk false true false).exited = false ∧
    (((Proc.mk false true false).exitsOnInt = true →
      Sig.sigterm ∉ (close false true (some (Proc.mk false true false))).signals ∧
      (close false true (some (Proc.mk false true false))).result = .ok) ∧
    ((Proc.mk false true false).exitsOnInt = false →
      Sig.sigterm ∈ (close false true (some (Proc.mk false true false))).signals ∧
      ((close false true (some (Proc.mk false true false))).result = .ok ↔
        (Proc.mk false true false).exitsOnTerm = true))) :=
  ⟨rfl, c6_gentle_close (Proc.mk false true false) rfl⟩

/-- C7: `close` is idempotent once it has completed: if a `close` call
returns normally (clearing `self.process`), a second `close` call — for
any `gently` value — returns normally, delivers no signal, and leaves the
handle cleared. -/
theorem c7_close_idempotent (w32 g1 g2 : Bool) (s : Option Proc)
    (h : (close w32 g1 s).result = .ok) :
    close w32 g2 (close w32 g1 s).state = ⟨none, [], .ok⟩ := by
  rw [close_ok_clears w32 g1 s h]
  rfl

/-- C7 witness: a gentle close of a cooperative process, followed by a
forceful close. -/
theorem c7_witness :
    (close false true (some (Proc.mk false true true))).result = .ok ∧
    close false false
        (close false true (some (Proc.mk false true true))).state
      = ⟨none, [], .ok⟩ :=
  ⟨rfl, c7_close_idempotent false true false (some (Proc.mk false true true))
    rfl⟩

/-- C8: `is_running` is `false` when the context holds no `ArtiProcess`
(never started), `false` when the `ArtiProcess` handle is `None`, `false`
after any `close` (with any platform and `gently` value) that completed,
and otherwise `true` iff the non-blocking `poll()` shows the process has
not yet exited. -/
theorem c8_is_running (ctx : TestContextState) (p : Proc) (w32 g : Bool)
    (s : Option Proc) (h : (close w32 g s).result = .ok) :
    arti_process_is_running { ctx with arti_process := none } = false ∧
    is_running none = false ∧
    is_running (close w32 g s).state = false ∧
    is_running (some p) = !p.exited := by
  refine ⟨rfl, rfl, ?_, rfl⟩
  rw [close_ok_clears w32 g s h]
  rfl

/-- C8 witness: the running context, a live process, and a completed
forceful close. -/
theorem c8_witness :
    (close true false (some (Proc.mk false false true))).result = .ok ∧
    (arti_process_is_running { ctxRunning with arti_process := none } = false ∧
      is_running none = false ∧
      is_running (close true false (some (Proc.mk false false true))).state
        = false ∧
      is_running (some (Proc.mk false true true))
        = !(Proc.mk false true true).exited) :=
  ⟨rfl, c8_is_running ctxRunning (Proc.mk false true true) true false
    (some (Proc.mk false false true)) rfl⟩

/-- C9: when an attempt succeeds, `_wait_for_rpc` binds the connection
object to `_` and discards it: the run returns the bare `ok` outcome
carrying no connection, and the `TestContextState` — every field,
including `arti_process` and the stored paths — is returned unchanged. -/
theorem c9_success_frame (t : ℚ) (ctx : TestContextState)
    (atts : Nat → AttemptResult) (d : Nat)
    (hd : d < (⌈t / (1 / 10 : ℚ)⌉).toNat)
    (hfail : ∀ j, j < d → atts j = .rpcError)
    (hsucc : atts d = .success) :
    wait_for_rpc_ctx t ctx atts = (ctx, ⟨.ok, d + 1, (d : ℚ) * (1 / 10)⟩) := by
  rw [wait_for_rpc_ctx, wait_for_rpc,
    waitForRpcGen_first_success t (1 / 10) atts d hd hfail hsucc]

/-- C9 witness: the running context with an immediately succeeding
attempt. -/
theorem c9_witness :
    (0 < (⌈(3 : ℚ) / (1 / 10)⌉).toNat ∧
      (∀ j, j < 0 → (fun _ => AttemptResult.success) j = .rpcError) ∧
      (fun _ => AttemptResult.success) 0 = .success) ∧
    wait_for_rpc_ctx 3 ctxRunning (fun _ => .success)
      = (ctxRunning, ⟨.ok, 0 + 1, ((0 : ℕ) : ℚ) * (1 / 10)⟩) :=
  ⟨⟨by rw [budget_three]; decide, by decide, by decide⟩,
   c9_success_frame 3 ctxRunning (fun _ => .success) 0
     (by rw [budget_three]; decide) (by decide) (by decide)⟩

/-- C10: when the final `wait(10)` times out — the process ignores every
signal — `close` raises `TimeoutExpired`, `self.process` is not cleared,
and a subsequent `close` call on the same object delivers signals again
instead of being a no-op. -/
theorem c10_failed_wait_keeps_handle (w32 g : Bool) (p : Proc)
    (h1 : p.exited = false) (h2 : p.exitsOnInt = false)
    (h3 : p.exitsOnTerm = false) :
    (close w32 g (some p)).result = .timeoutExpired ∧
    (close w32 g (some p)).state = some p ∧
    (close w32 g (close w32 g (some p)).state).signals ≠ [] := by
  refine ⟨?_, ?_, ?_⟩ <;> cases w32 <;> cases g <;>
    simp [close, h1, h2, h3]

/-- C10 witness: a gentle close, on a non-win32 platform, of a process
that ignores both SIGINT and SIGTERM. -/
theorem c10_witness :
    ((Proc.mk false false false).exited = false ∧
      (Proc.mk false false false).exitsOnInt = false ∧
      (Proc.mk false false false).exitsOnTerm = false) ∧
    ((close false true (some (Proc.mk false false false))).result
        = .timeoutExpired ∧
      (close false true (some (Proc.mk false false false))).state
        = some (Proc.mk false false false) ∧
      (close false true
          (close false true (some (Proc.mk false false false))).state).signals
        ≠ []) :=
  ⟨⟨rfl, rfl, rfl⟩,
   c10_failed_wait_keeps_handle false true (Proc.mk false false false)
     rfl rfl rfl⟩

end ArtiRpcTests
